import Mathlib

/-!
Verification of the keyframe sampling engine of the video-summary server.

The definitions below are a shallow embedding of `src/frame_extractor.py`
(`extract_keyframes`) and `src/prompt.py` (`build_summary_prompt`,
`build_analysis_prompt`).  Times and frame rates are rationals, Python's
`int()` is truncation toward zero, the sequential decoder is abstracted by
the index below which reads succeed, and the `cv2.VideoCapture` handle's
release is tracked by a boolean alongside the result.
-/

set_option maxRecDepth 8192

/-- Python `int()` on a rational: truncation toward zero. -/
def pyInt (q : ℚ) : ℤ := if 0 ≤ q then ⌊q⌋ else ⌈q⌉

/-- Decoded frame: its sequential index in the source plus the pixel
dimensions it is returned at (after the optional resize). -/
structure Frame where
  index : ℤ
  width : ℕ
  height : ℕ
deriving DecidableEq

/-- Abstract video source, as `cv2.VideoCapture` exposes it to
`extract_keyframes`: whether the path opened, the reported fps and frame
count, the native frame size, and `decodeLimit`, the index from which
sequential reads fail (`cap.read()` returns `ret = False`). -/
structure VideoSource where
  opened : Bool
  fps : ℚ
  frameCount : ℕ
  nativeWidth : ℕ
  nativeHeight : ℕ
  decodeLimit : ℤ

/-- Failure modes of `extract_keyframes`: the `ValueError` raises of lines
27 and 39-44 of `frame_extractor.py`, each carrying the offending values
that the Python message interpolates, plus the `ZeroDivisionError` that
`frame_id % 0` raises when `frame_interval` computes to zero. -/
inductive ExtractError where
  | cannotOpen : ExtractError
  | negativeStart (s : ℚ) : ExtractError
  | endExceedsDuration (e d : ℚ) : ExtractError
  | startNotBeforeEnd (s e : ℚ) : ExtractError
  | zeroDivisionError : ExtractError
deriving DecidableEq

/-- Line 31: `duration = total_frames / fps if fps > 0 else 0`. -/
def durationOf (src : VideoSource) : ℚ :=
  if 0 < src.fps then (src.frameCount : ℚ) / src.fps else 0

/-- Lines 34-35: `start_time = 0.0` when the caller passes `None`. -/
def resolveStart (start_time : Option ℚ) : ℚ := start_time.getD 0

/-- Lines 36-37: `end_time = duration` when the caller passes `None`. -/
def resolveEnd (src : VideoSource) (end_time : Option ℚ) : ℚ :=
  end_time.getD (durationOf src)

/-- Lines 64-69: the per-frame resize.  When `max_width` is set and the
native width exceeds it, the frame is emitted at width `max_width` and
height `int(original_height * (max_width / original_width))`; otherwise it
keeps its native dimensions. -/
def resizedFrame (src : VideoSource) (max_width : Option ℕ) (i : ℤ) : Frame :=
  match max_width with
  | some mw =>
    if mw < src.nativeWidth then
      ⟨i, mw, (pyInt ((src.nativeHeight : ℚ) * ((mw : ℚ) / (src.nativeWidth : ℚ)))).toNat⟩
    else ⟨i, src.nativeWidth, src.nativeHeight⟩
  | none => ⟨i, src.nativeWidth, src.nativeHeight⟩

/-- Lines 59-71: the decode-and-sample loop.  `n` is the number of indices
left in the window (`while frame_id <= end_frame`), `fid` the current
`frame_id`.  A read succeeds iff `fid < dl`; on failure the loop breaks.
After a successful read, Python evaluates `frame_id % frame_interval`,
which raises `ZeroDivisionError` when `frame_interval = 0`; otherwise the
frame is collected iff the remainder is zero. -/
def sampleLoop (frame_interval dl : ℤ) (mk : ℤ → Frame) : ℤ → ℕ → Except ExtractError (List Frame)
  | _, 0 => .ok []
  | fid, n + 1 =>
    if fid < dl then
      if frame_interval = 0 then .error .zeroDivisionError
      else if fid % frame_interval = 0 then
        match sampleLoop frame_interval dl mk (fid + 1) n with
        | .ok fs => .ok (mk fid :: fs)
        | .error e => .error e
      else sampleLoop frame_interval dl mk (fid + 1) n
    else .ok []

/-- Shallow embedding of `extract_keyframes` (`src/frame_extractor.py`).
The second component records whether `cap.release()` (line 73) ran before
the function exited; the `raise` statements of lines 27 and 39-44 and an
uncaught `ZeroDivisionError` all skip it. -/
def extract_keyframes_run (src : VideoSource) (interval_sec : ℚ)
    (start_time end_time : Option ℚ) (max_width : Option ℕ) :
    Except ExtractError (List Frame) × Bool :=
  if src.opened = false then (.error .cannotOpen, false)
  else if resolveStart start_time < 0 then
    (.error (.negativeStart (resolveStart start_time)), false)
  else if durationOf src < resolveEnd src end_time then
    (.error (.endExceedsDuration (resolveEnd src end_time) (durationOf src)), false)
  else if resolveEnd src end_time ≤ resolveStart start_time then
    (.error (.startNotBeforeEnd (resolveStart start_time) (resolveEnd src end_time)), false)
  else
    match sampleLoop (pyInt (src.fps * interval_sec)) src.decodeLimit
        (resizedFrame src max_width)
        (pyInt (resolveStart start_time * src.fps))
        ((pyInt (resolveEnd src end_time * src.fps) -
          pyInt (resolveStart start_time * src.fps) + 1).toNat) with
    | .ok fs => (.ok fs, true)
    | .error e => (.error e, false)

/-- Result of `extract_keyframes` alone (the returned value or the raised
error), without the release flag. -/
def extract_keyframes (src : VideoSource) (interval_sec : ℚ)
    (start_time end_time : Option ℚ) (max_width : Option ℕ) :
    Except ExtractError (List Frame) :=
  (extract_keyframes_run src interval_sec start_time end_time max_width).1

/-- Indices of the frames of a successful extraction. -/
def indicesOf (r : Except ExtractError (List Frame)) : Option (List ℤ) :=
  match r with
  | .ok fs => some (fs.map Frame.index)
  | .error _ => none

/-- Whether a result is one of the three window-validation errors
(the `InvalidWindow` family of the spec). -/
def isInvalidWindow (r : Except ExtractError (List Frame)) : Bool :=
  match r with
  | .error (.negativeStart _) => true
  | .error (.endExceedsDuration _ _) => true
  | .error (.startNotBeforeEnd _ _) => true
  | _ => false

/-- Window indices: `fid, fid+1, ..., fid+n-1`. -/
def idxList : ℤ → ℕ → List ℤ
  | _, 0 => []
  | fid, n + 1 => fid :: idxList (fid + 1) n

/-- Indices the loop emits: window indices that decode and are divisible by
the step. -/
def emittedIdx (start_frame end_frame step dl : ℤ) : List ℤ :=
  (idxList start_frame (end_frame - start_frame + 1).toNat).filter
    (fun i => decide (i < dl) && decide (i % step = 0))

/-! Prompt tables of `src/prompt.py`, as association lists mirroring the
Python dicts, with `dict.get(style, prompts["short"])` lookup. -/

/-- Prompt table of `build_summary_prompt` (lines 16-37 of `prompt.py`). -/
def summaryPromptTable : List (String × String) :=
  [("short", "Summarize what happens in this video. Focus on actions, events, and salient changes. Keep it concise."),
   ("timeline", "Summarize the video. Then produce a timeline of key events with approximate timestamps. Format as: [Time] - Event description"),
   ("detailed", "Provide a detailed summary of this video. Describe key actions, scene changes, objects, people, and timeline. Include as much context as possible."),
   ("technical", "Provide a technical summary of this video. Focus on measurable actions, scene transitions, and objective observations. Use bullet points for clarity.")]

/-- Prompt table of `build_analysis_prompt` (lines 52-73 of `prompt.py`). -/
def analysisPromptTable : List (String × String) :=
  [("short", "Analyze this image. Describe what you see, including key objects, people, scenes, and any notable details. Keep it concise."),
   ("detailed", "Provide a detailed analysis of this image. Describe all visible objects, people, scenes, colors, composition, lighting, and any other relevant details. Include context and potential interpretations."),
   ("technical", "Provide a technical analysis of this image. Focus on objective observations: objects, colors, composition, lighting conditions, image quality, and measurable characteristics. Use bullet points for clarity."),
   ("descriptive", "Provide a rich, descriptive analysis of this image. Describe the scene, atmosphere, mood, and visual elements in detail. Include artistic and aesthetic observations.")]

/-- Embedding of `build_summary_prompt`: dict lookup with the `short`
prompt as default. -/
def build_summary_prompt (style : String) : String :=
  (summaryPromptTable.lookup style).getD
    "Summarize what happens in this video. Focus on actions, events, and salient changes. Keep it concise."

/-- Embedding of `build_analysis_prompt`: dict lookup with the `short`
prompt as default. -/
def build_analysis_prompt (style : String) : String :=
  (analysisPromptTable.lookup style).getD
    "Analyze this image. Describe what you see, including key objects, people, scenes, and any notable details. Keep it concise."

/-! Core lemmas about the sampling loop. -/

/-- Membership in the window index list is an interval condition. -/
theorem mem_idxList : ∀ (n : ℕ) (fid i : ℤ), i ∈ idxList fid n ↔ fid ≤ i ∧ i < fid + n := by
  intro n
  induction n with
  | zero =>
    intro fid i
    simp only [idxList, List.not_mem_nil, false_iff, Nat.cast_zero, add_zero]
    omega
  | succ n ih =>
    intro fid i
    rw [idxList, List.mem_cons, ih (fid + 1) i]
    push_cast
    omega

/-- With a nonzero step, the loop succeeds and collects exactly the window
indices that decode and are divisible by the step, in order. -/
theorem sampleLoop_eq_filter (step dl : ℤ) (mk : ℤ → Frame) (hstep : step ≠ 0) :
    ∀ (n : ℕ) (fid : ℤ),
      sampleLoop step dl mk fid n =
        .ok (((idxList fid n).filter
          (fun i => decide (i < dl) && decide (i % step = 0))).map mk) := by
  intro n
  induction n with
  | zero => intro fid; simp [sampleLoop, idxList]
  | succ n ih =>
    intro fid
    rw [idxList]
    by_cases hdl : fid < dl
    · by_cases hmod : fid % step = 0
      · have hc : (decide (fid < dl) && decide (fid % step = 0)) = true := by
          simp [hdl, hmod]
        simp only [sampleLoop, if_pos hdl, if_neg hstep, if_pos hmod, ih (fid + 1)]
        rw [List.filter_cons, if_pos hc, List.map_cons]
      · have hc : ¬ ((decide (fid < dl) && decide (fid % step = 0)) = true) := by
          simp [hmod]
        simp only [sampleLoop, if_pos hdl, if_neg hstep, if_neg hmod, ih (fid + 1)]
        rw [List.filter_cons, if_neg hc]
    · simp only [sampleLoop, if_neg hdl]
      have hnil : (fid :: idxList (fid + 1) n).filter
          (fun i => decide (i < dl) && decide (i % step = 0)) = [] := by
        refine List.filter_eq_nil_iff.mpr ?_
        intro a ha
        have : fid ≤ a := by
          rcases List.mem_cons.mp ha with h | h
          · omega
          · have := (mem_idxList n (fid + 1) a).mp h
            omega
        simp only [Bool.and_eq_true, decide_eq_true_eq, not_and]
        intro hlt
        omega
      rw [hnil]
      simp

/-- The loop's only possible error is the zero-step division error. -/
theorem sampleLoop_error (step dl : ℤ) (mk : ℤ → Frame) :
    ∀ (n : ℕ) (fid : ℤ) (e : ExtractError),
      sampleLoop step dl mk fid n = .error e → e = .zeroDivisionError := by
  intro n
  induction n with
  | zero => intro fid e h; simp [sampleLoop] at h
  | succ n ih =>
    intro fid e h
    simp only [sampleLoop] at h
    by_cases hdl : fid < dl
    · rw [if_pos hdl] at h
      by_cases hstep : step = 0
      · rw [if_pos hstep] at h
        exact (Except.error.inj h).symm
      · rw [if_neg hstep] at h
        by_cases hmod : fid % step = 0
        · rw [if_pos hmod] at h
          cases hrec : sampleLoop step dl mk (fid + 1) n with
          | ok fs => rw [hrec] at h; simp at h
          | error e' =>
            rw [hrec] at h
            have he : e' = e := Except.error.inj h
            subst he
            exact ih (fid + 1) e' hrec
        · rw [if_neg hmod] at h
          exact ih (fid + 1) e h
    · rw [if_neg hdl] at h
      simp at h

/-- Any successful loop run yields frames whose indices lie in the window
suffix it scanned, in strictly increasing order. -/
theorem sampleLoop_ok_sorted (step dl : ℤ) (mk : ℤ → Frame)
    (hmk : ∀ i, (mk i).index = i) :
    ∀ (n : ℕ) (fid : ℤ) (fs : List Frame), sampleLoop step dl mk fid n = .ok fs →
      (∀ f ∈ fs, fid ≤ f.index ∧ f.index < fid + n) ∧
        fs.Pairwise (fun a b => a.index < b.index) := by
  intro n
  induction n with
  | zero =>
    intro fid fs h
    simp [sampleLoop] at h
    subst h
    simp
  | succ n ih =>
    intro fid fs h
    simp only [sampleLoop] at h
    by_cases hdl : fid < dl
    · rw [if_pos hdl] at h
      by_cases hstep : step = 0
      · rw [if_pos hstep] at h
        simp at h
      · rw [if_neg hstep] at h
        by_cases hmod : fid % step = 0
        · rw [if_pos hmod] at h
          cases hrec : sampleLoop step dl mk (fid + 1) n with
          | error e' => rw [hrec] at h; simp at h
          | ok fs' =>
            rw [hrec] at h
            simp only [Except.ok.injEq] at h
            subst h
            obtain ⟨hb, hp⟩ := ih (fid + 1) fs' hrec
            constructor
            · intro f hf
              rcases List.mem_cons.mp hf with rfl | hf'
              · rw [hmk]
                omega
              · have := hb f hf'
                omega
            · refine List.pairwise_cons.mpr ⟨?_, hp⟩
              intro f hf
              have := hb f hf
              rw [hmk]
              omega
        · rw [if_neg hmod] at h
          obtain ⟨hb, hp⟩ := ih (fid + 1) fs h
          refine ⟨?_, hp⟩
          intro f hf
          have := hb f hf
          omega
    · rw [if_neg hdl] at h
      simp only [Except.ok.injEq] at h
      subst h
      simp

/-- Resizing never changes a frame's index. -/
theorem resizedFrame_index (src : VideoSource) (mw : Option ℕ) (i : ℤ) :
    (resizedFrame src mw i).index = i := by
  unfold resizedFrame
  cases mw with
  | none => rfl
  | some m =>
    by_cases h : m < src.nativeWidth
    · simp [h]
    · simp [h]

/-- Truncation equals floor on nonnegative rationals. -/
theorem pyInt_of_nonneg {q : ℚ} (h : 0 ≤ q) : pyInt q = ⌊q⌋ := by
  unfold pyInt
  rw [if_pos h]

/-- Validation passing forces a positive frame rate: the window end is
positive and bounded by the duration, which is `0` unless `fps > 0`. -/
theorem fps_pos_of_valid (src : VideoSource) (en : Option ℚ) {s : ℚ}
    (h0 : 0 ≤ s) (h1 : s < resolveEnd src en) (h2 : resolveEnd src en ≤ durationOf src) :
    0 < src.fps := by
  by_contra hfps
  have hd : durationOf src = 0 := by
    unfold durationOf
    rw [if_neg hfps]
  rw [hd] at h2
  linarith

/-- Success-path characterization of `extract_keyframes_run`: when the
source opens, the window validates and the step is nonzero, the call
returns (with the handle released) exactly the emitted window indices,
each turned into a possibly-resized frame. -/
theorem extract_run_ok (src : VideoSource) (interval_sec : ℚ)
    (st en : Option ℚ) (mw : Option ℕ)
    (hop : src.opened = true)
    (h0 : 0 ≤ resolveStart st)
    (h1 : resolveStart st < resolveEnd src en)
    (h2 : resolveEnd src en ≤ durationOf src)
    (hstep : pyInt (src.fps * interval_sec) ≠ 0) :
    extract_keyframes_run src interval_sec st en mw =
      (.ok ((emittedIdx (pyInt (resolveStart st * src.fps))
          (pyInt (resolveEnd src en * src.fps))
          (pyInt (src.fps * interval_sec)) src.decodeLimit).map (resizedFrame src mw)),
        true) := by
  unfold extract_keyframes_run
  rw [if_neg (by simp [hop]), if_neg (not_lt.mpr h0), if_neg (not_lt.mpr h2),
    if_neg (not_le.mpr h1)]
  rw [sampleLoop_eq_filter _ _ _ hstep]
  rfl

/-- Zero-step path: when the window validates but `frame_interval`
computes to `0` and the first read succeeds, the call dies with the
division error and the handle is not released. -/
theorem extract_run_zero_step (src : VideoSource) (interval_sec : ℚ)
    (st en : Option ℚ) (mw : Option ℕ)
    (hop : src.opened = true)
    (h0 : 0 ≤ resolveStart st)
    (h1 : resolveStart st < resolveEnd src en)
    (h2 : resolveEnd src en ≤ durationOf src)
    (hstep : pyInt (src.fps * interval_sec) = 0)
    (hfirst : pyInt (resolveStart st * src.fps) < src.decodeLimit)
    (hle : pyInt (resolveStart st * src.fps) ≤ pyInt (resolveEnd src en * src.fps)) :
    extract_keyframes_run src interval_sec st en mw =
      (.error .zeroDivisionError, false) := by
  unfold extract_keyframes_run
  rw [if_neg (by simp [hop]), if_neg (not_lt.mpr h0), if_neg (not_lt.mpr h2),
    if_neg (not_le.mpr h1)]
  have hn : (pyInt (resolveEnd src en * src.fps) -
      pyInt (resolveStart st * src.fps) + 1).toNat =
      (pyInt (resolveEnd src en * src.fps) -
        pyInt (resolveStart st * src.fps)).toNat + 1 := by
    omega
  rw [hn]
  simp only [sampleLoop, if_pos hfirst, if_pos hstep]

/-- The window indices are ordered, so the emitted frames of any
successful call are in-window and strictly increasing. -/
theorem extract_ok_sorted (src : VideoSource) (interval_sec : ℚ)
    (st en : Option ℚ) (mw : Option ℕ) (fs : List Frame)
    (h : extract_keyframes src interval_sec st en mw = .ok fs) :
    (∀ f ∈ fs, pyInt (resolveStart st * src.fps) ≤ f.index ∧
      f.index ≤ pyInt (resolveEnd src en * src.fps)) ∧
      fs.Pairwise (fun a b => a.index < b.index) := by
  unfold extract_keyframes extract_keyframes_run at h
  by_cases hop : src.opened = false
  · rw [if_pos hop] at h
    simp at h
  rw [if_neg hop] at h
  by_cases hv1 : resolveStart st < 0
  · rw [if_pos hv1] at h
    simp at h
  rw [if_neg hv1] at h
  by_cases hv2 : durationOf src < resolveEnd src en
  · rw [if_pos hv2] at h
    simp at h
  rw [if_neg hv2] at h
  by_cases hv3 : resolveEnd src en ≤ resolveStart st
  · rw [if_pos hv3] at h
    simp at h
  rw [if_neg hv3] at h
  cases hrec : sampleLoop (pyInt (src.fps * interval_sec)) src.decodeLimit
      (resizedFrame src mw) (pyInt (resolveStart st * src.fps))
      ((pyInt (resolveEnd src en * src.fps) -
        pyInt (resolveStart st * src.fps) + 1).toNat) with
  | error e => rw [hrec] at h; simp at h
  | ok fs' =>
    rw [hrec] at h
    simp only [Except.ok.injEq] at h
    subst h
    obtain ⟨hb, hp⟩ := sampleLoop_ok_sorted _ _ _
      (resizedFrame_index src mw) _ _ _ hrec
    refine ⟨?_, hp⟩
    intro f hf
    have := hb f hf
    omega

/-- The loop can only end in success or the division error, so a
validated window never produces one of the three window errors. -/
theorem extract_invalid_iff (src : VideoSource) (interval_sec : ℚ)
    (st en : Option ℚ) (mw : Option ℕ) (hop : src.opened = true) :
    isInvalidWindow (extract_keyframes src interval_sec st en mw) = true ↔
      ¬ (0 ≤ resolveStart st ∧ resolveStart st < resolveEnd src en ∧
        resolveEnd src en ≤ durationOf src) := by
  unfold extract_keyframes extract_keyframes_run
  rw [if_neg (by simp [hop])]
  by_cases hv1 : resolveStart st < 0
  · rw [if_pos hv1]
    simp only [isInvalidWindow, true_iff]
    intro hcon
    linarith [hcon.1]
  rw [if_neg hv1]
  by_cases hv2 : durationOf src < resolveEnd src en
  · rw [if_pos hv2]
    simp only [isInvalidWindow, true_iff]
    intro hcon
    linarith [hcon.2.2]
  rw [if_neg hv2]
  by_cases hv3 : resolveEnd src en ≤ resolveStart st
  · rw [if_pos hv3]
    simp only [isInvalidWindow, true_iff]
    intro hcon
    linarith [hcon.2.1]
  rw [if_neg hv3]
  cases hrec : sampleLoop (pyInt (src.fps * interval_sec)) src.decodeLimit
      (resizedFrame src mw) (pyInt (resolveStart st * src.fps))
      ((pyInt (resolveEnd src en * src.fps) -
        pyInt (resolveStart st * src.fps) + 1).toNat) with
  | ok fs =>
    exact iff_of_false (by simp [isInvalidWindow])
      (not_not.mpr ⟨not_lt.mp hv1, not_le.mp hv3, not_lt.mp hv2⟩)
  | error e =>
    have he := sampleLoop_error _ _ _ _ _ _ hrec
    subst he
    exact iff_of_false (by simp [isInvalidWindow])
      (not_not.mpr ⟨not_lt.mp hv1, not_le.mp hv3, not_lt.mp hv2⟩)

/-- Evaluation rule for truncation of a concrete nonnegative rational. -/
theorem pyInt_eval {q : ℚ} {z : ℤ} (h0 : 0 ≤ q) (h1 : (z : ℚ) ≤ q)
    (h2 : q < (z : ℚ) + 1) : pyInt q = z := by
  rw [pyInt_of_nonneg h0, Int.floor_eq_iff]
  exact ⟨h1, h2⟩

/-- Truncation is monotone on nonnegative rationals. -/
theorem pyInt_mono_nonneg {a b : ℚ} (h0 : 0 ≤ a) (h : a ≤ b) :
    pyInt a ≤ pyInt b := by
  rw [pyInt_of_nonneg h0, pyInt_of_nonneg (h0.trans h)]
  exact Int.floor_le_floor h

/-- Indices of resized frames are the underlying index list. -/
theorem indicesOf_map_resized (src : VideoSource) (mw : Option ℕ) (l : List ℤ) :
    (l.map (resizedFrame src mw)).map Frame.index = l := by
  rw [List.map_map]
  have hcomp : (Frame.index ∘ resizedFrame src mw) = id := by
    funext i
    simp [Function.comp, resizedFrame_index]
  rw [hcomp, List.map_id]

/-- The window index list is strictly increasing. -/
theorem idxList_pairwise : ∀ (n : ℕ) (fid : ℤ), (idxList fid n).Pairwise (· < ·) := by
  intro n
  induction n with
  | zero => intro fid; simp [idxList]
  | succ n ih =>
    intro fid
    rw [idxList]
    refine List.pairwise_cons.mpr ⟨?_, ih (fid + 1)⟩
    intro a ha
    have := (mem_idxList n (fid + 1) a).mp ha
    omega

/-- Membership in the emitted index list: in-window, decodable, divisible
by the step. -/
theorem mem_emittedIdx (sf ef step dl i : ℤ) (hse : sf ≤ ef) :
    i ∈ emittedIdx sf ef step dl ↔
      sf ≤ i ∧ i ≤ ef ∧ i < dl ∧ i % step = 0 := by
  unfold emittedIdx
  rw [List.mem_filter, mem_idxList]
  simp only [Bool.and_eq_true, decide_eq_true_eq]
  constructor
  · rintro ⟨⟨ha, hb⟩, hc, hd⟩
    exact ⟨ha, by omega, hc, hd⟩
  · rintro ⟨ha, hb, hc, hd⟩
    exact ⟨⟨ha, by omega⟩, hc, hd⟩

/-- Emitted indices are divisible by the step and below the decode limit. -/
theorem emittedIdx_forall (sf ef step dl : ℤ) :
    ∀ i ∈ emittedIdx sf ef step dl, i < dl ∧ i % step = 0 := by
  intro i hi
  have := List.mem_filter.mp hi
  simpa using this.2

/-- With a step longer than the window, at most one multiple of the step
fits in it, so at most one index is emitted. -/
theorem emittedIdx_len_le_one (sf ef step dl : ℤ) (hbig : ef - sf < step) :
    (emittedIdx sf ef step dl).length ≤ 1 := by
  cases hl : emittedIdx sf ef step dl with
  | nil => simp
  | cons a l2 =>
    cases l2 with
    | nil => simp
    | cons b t =>
      exfalso
      have hp : (a :: b :: t).Pairwise (· < ·) := by
        have hp0 : (emittedIdx sf ef step dl).Pairwise (· < ·) :=
          (idxList_pairwise _ _).filter _
        rw [hl] at hp0
        exact hp0
      have hab : a < b := (List.pairwise_cons.mp hp).1 b (by simp)
      have ha : a ∈ emittedIdx sf ef step dl := by rw [hl]; simp
      have hb : b ∈ emittedIdx sf ef step dl := by rw [hl]; simp
      obtain ⟨ha1, ha2⟩ := List.mem_filter.mp ha
      obtain ⟨hb1, hb2⟩ := List.mem_filter.mp hb
      rw [mem_idxList] at ha1 hb1
      simp only [Bool.and_eq_true, decide_eq_true_eq] at ha2 hb2
      have hdvd : step ∣ (b - a) :=
        dvd_sub (Int.dvd_of_emod_eq_zero hb2.2) (Int.dvd_of_emod_eq_zero ha2.2)
      have hpos : 0 < b - a := by omega
      have hstep_le : step ≤ b - a := Int.le_of_dvd hpos hdvd
      omega

/-! Concrete sources used as witnesses and counterexamples: a 30 fps,
600-frame (20 s) source that decodes fully, a variant whose decoder dies
at frame 200, a 4x3-pixel source for the resize arithmetic, and a source
reporting a zero frame rate. -/

/-- Source of the end-to-end scenario: 30 fps, 600 frames, 320x240, all
frames decodable. -/
def srcMain : VideoSource := ⟨true, 30, 600, 320, 240, 600⟩

/-- Same source but the decoder fails from frame 200 on. -/
def srcShort : VideoSource := ⟨true, 30, 600, 320, 240, 200⟩

/-- Tiny 4x3 source for the resize rounding arithmetic: 1 fps, 10 frames. -/
def srcResize : VideoSource := ⟨true, 1, 10, 4, 3, 10⟩

/-- Source whose reported frame rate is zero. -/
def srcZeroFps : VideoSource := ⟨true, 0, 100, 320, 240, 100⟩

/-- Projecting a known run to the result component. -/
theorem extract_eq_of_run {src : VideoSource} {interval_sec : ℚ}
    {st en : Option ℚ} {mw : Option ℕ} {r : Except ExtractError (List Frame)}
    {b : Bool} (h : extract_keyframes_run src interval_sec st en mw = (r, b)) :
    extract_keyframes src interval_sec st en mw = r := by
  unfold extract_keyframes
  rw [h]

/-! Concrete frame-index arithmetic for the sources above. -/

/-- Start frame of a defaulted window on the 30 fps source. -/
theorem srcMain_sf0 : pyInt (resolveStart (none : Option ℚ) * srcMain.fps) = 0 :=
  pyInt_eval (by norm_num [resolveStart, srcMain]) (by norm_num [resolveStart, srcMain])
    (by norm_num [resolveStart, srcMain])

/-- Start frame of a window starting at 5 s on the 30 fps source. -/
theorem srcMain_sf5 : pyInt (resolveStart (some (5 : ℚ)) * srcMain.fps) = 150 :=
  pyInt_eval (by norm_num [resolveStart, srcMain]) (by norm_num [resolveStart, srcMain])
    (by norm_num [resolveStart, srcMain])

/-- End frame of a window ending at 15 s on the 30 fps source. -/
theorem srcMain_ef15 : pyInt (resolveEnd srcMain (some (15 : ℚ)) * srcMain.fps) = 450 :=
  pyInt_eval (by norm_num [resolveEnd, srcMain]) (by norm_num [resolveEnd, srcMain])
    (by norm_num [resolveEnd, srcMain])

/-- End frame of a defaulted window on the 30 fps source. -/
theorem srcMain_efNone : pyInt (resolveEnd srcMain none * srcMain.fps) = 600 :=
  pyInt_eval (by norm_num [resolveEnd, durationOf, srcMain])
    (by norm_num [resolveEnd, durationOf, srcMain])
    (by norm_num [resolveEnd, durationOf, srcMain])

/-- End frame of a window ending at 5.5 s on the 30 fps source. -/
theorem srcMain_ef55 : pyInt (resolveEnd srcMain (some (11 / 2 : ℚ)) * srcMain.fps) = 165 :=
  pyInt_eval (by norm_num [resolveEnd, srcMain]) (by norm_num [resolveEnd, srcMain])
    (by norm_num [resolveEnd, srcMain])

/-- Frame step for a 2 s interval on the 30 fps source. -/
theorem srcMain_step2 : pyInt (srcMain.fps * 2) = 60 :=
  pyInt_eval (by norm_num [srcMain]) (by norm_num [srcMain]) (by norm_num [srcMain])

/-- Frame step for a 0.01 s interval on the 30 fps source: `int(0.3) = 0`. -/
theorem srcMain_step001 : pyInt (srcMain.fps * (1 / 100)) = 0 :=
  pyInt_eval (by norm_num [srcMain]) (by norm_num [srcMain]) (by norm_num [srcMain])

/-- C1 counterexample: on a 30 fps, 600-frame source with window
`[5, 15]` and a 2 s interval, the code emits the absolute multiples of 60
inside the window - indices 180, 240, 300, 360, 420 (five frames) - not
the claimed relative grid 150, 210, ..., 450; the emitted index 180 even
violates the claimed `(i - startFrame) % frameStep == 0` condition. -/
theorem C1_counterexample :
    indicesOf (extract_keyframes srcMain 2 (some 5) (some 15) (some 512)) =
      some [180, 240, 300, 360, 420] ∧
    ((180 - 150 : ℤ) % 60 ≠ 0) ∧
    ([180, 240, 300, 360, 420] : List ℤ) ≠ [150, 210, 270, 330, 390, 450] := by
  have h := extract_run_ok srcMain 2 (some 5) (some 15) (some 512) rfl
    (by norm_num [resolveStart]) (by norm_num [resolveStart, resolveEnd, srcMain])
    (by norm_num [resolveEnd, durationOf, srcMain])
    (by rw [srcMain_step2]; decide)
  rw [srcMain_sf5, srcMain_ef15, srcMain_step2] at h
  refine ⟨?_, by decide, by decide⟩
  rw [extract_eq_of_run h]
  simp only [indicesOf]
  rw [indicesOf_map_resized]
  decide

/-- C1 (amended): for every successfully sampled source, the emitted frame
indices are exactly the window indices `i` with `startFrame ≤ i ≤ endFrame`
that decode and satisfy the absolute condition `i % frameStep == 0` - the
sampling grid is anchored at index 0, not at the window start, so the
emitted set depends on where the window begins; the scenario of the claim
yields the five frames 180, 240, 300, 360, 420. -/
theorem C1_thm (src : VideoSource) (interval_sec : ℚ) (st en : Option ℚ)
    (mw : Option ℕ)
    (hop : src.opened = true)
    (h0 : 0 ≤ resolveStart st)
    (h1 : resolveStart st < resolveEnd src en)
    (h2 : resolveEnd src en ≤ durationOf src)
    (hstep : pyInt (src.fps * interval_sec) ≠ 0) :
    indicesOf (extract_keyframes src interval_sec st en mw) =
      some (emittedIdx (pyInt (resolveStart st * src.fps))
        (pyInt (resolveEnd src en * src.fps)) (pyInt (src.fps * interval_sec))
        src.decodeLimit) ∧
    (∀ i : ℤ, i ∈ emittedIdx (pyInt (resolveStart st * src.fps))
        (pyInt (resolveEnd src en * src.fps)) (pyInt (src.fps * interval_sec))
        src.decodeLimit ↔
      pyInt (resolveStart st * src.fps) ≤ i ∧
        i ≤ pyInt (resolveEnd src en * src.fps) ∧
        i < src.decodeLimit ∧ i % pyInt (src.fps * interval_sec) = 0) := by
  have hfps := fps_pos_of_valid src en h0 h1 h2
  have hse : pyInt (resolveStart st * src.fps) ≤ pyInt (resolveEnd src en * src.fps) :=
    pyInt_mono_nonneg (mul_nonneg h0 hfps.le)
      (mul_le_mul_of_nonneg_right h1.le hfps.le)
  refine ⟨?_, fun i => mem_emittedIdx _ _ _ _ i hse⟩
  rw [extract_eq_of_run (extract_run_ok src interval_sec st en mw hop h0 h1 h2 hstep)]
  simp only [indicesOf]
  rw [indicesOf_map_resized]

/-- Witness for C1 at the scenario input. -/
theorem C1_witness :
    indicesOf (extract_keyframes srcMain 2 (some 5) (some 15) (some 512)) =
      some (emittedIdx (pyInt (resolveStart (some (5 : ℚ)) * srcMain.fps))
        (pyInt (resolveEnd srcMain (some (15 : ℚ)) * srcMain.fps))
        (pyInt (srcMain.fps * 2)) srcMain.decodeLimit) ∧
    (∀ i : ℤ, i ∈ emittedIdx (pyInt (resolveStart (some (5 : ℚ)) * srcMain.fps))
        (pyInt (resolveEnd srcMain (some (15 : ℚ)) * srcMain.fps))
        (pyInt (srcMain.fps * 2)) srcMain.decodeLimit ↔
      pyInt (resolveStart (some (5 : ℚ)) * srcMain.fps) ≤ i ∧
        i ≤ pyInt (resolveEnd srcMain (some (15 : ℚ)) * srcMain.fps) ∧
        i < srcMain.decodeLimit ∧ i % pyInt (srcMain.fps * 2) = 0) :=
  C1_thm srcMain 2 (some 5) (some 15) (some 512) rfl
    (by norm_num [resolveStart]) (by norm_num [resolveStart, resolveEnd, srcMain])
    (by norm_num [resolveEnd, durationOf, srcMain])
    (by rw [srcMain_step2]; decide)

/-- C2: the claim says `frameStep` is clamped to at least 1; the code has
no clamp - on a 30 fps source with a 0.01 s interval, `frame_interval`
computes to `int(0.3) = 0` and the first loop iteration evaluates
`frame_id % 0`, raising `ZeroDivisionError`. -/
theorem C2_thm :
    pyInt (srcMain.fps * (1 / 100)) = 0 ∧
    extract_keyframes srcMain (1 / 100) none none (some 512) =
      .error .zeroDivisionError := by
  refine ⟨srcMain_step001, ?_⟩
  refine extract_eq_of_run (extract_run_zero_step srcMain (1 / 100) none none
    (some 512) rfl (by norm_num [resolveStart])
    (by norm_num [resolveStart, resolveEnd, durationOf, srcMain])
    (by norm_num [resolveEnd, durationOf, srcMain]) srcMain_step001 ?_ ?_)
  · rw [srcMain_sf0]
    decide
  · rw [srcMain_sf0, srcMain_efNone]
    decide

/-- C3: the claim says the handle is released on every exit path; the code
releases only on the normal return - on a validation failure
(`start_time = -1`) the `ValueError` propagates with the handle still
open (release flag `false`). -/
theorem C3_thm :
    extract_keyframes_run srcMain 10 (some (-1)) none (some 512) =
      (.error (.negativeStart (-1)), false) := by
  unfold extract_keyframes_run
  rw [if_neg (by simp [srcMain]), if_pos (by norm_num [resolveStart])]
  norm_num [resolveStart]

/-- C4: the call produces one of the three window errors exactly when the
resolved window violates `0 ≤ start < end ≤ duration`, and each violated
condition yields its specific error carrying the offending values:
negative start, end beyond duration (with the duration), start at or past
end (with both values). -/
theorem C4_thm (src : VideoSource) (interval_sec : ℚ) (st en : Option ℚ)
    (mw : Option ℕ) (hop : src.opened = true) :
    (isInvalidWindow (extract_keyframes src interval_sec st en mw) = true ↔
      ¬ (0 ≤ resolveStart st ∧ resolveStart st < resolveEnd src en ∧
        resolveEnd src en ≤ durationOf src)) ∧
    (resolveStart st < 0 →
      extract_keyframes src interval_sec st en mw =
        .error (.negativeStart (resolveStart st))) ∧
    (0 ≤ resolveStart st → durationOf src < resolveEnd src en →
      extract_keyframes src interval_sec st en mw =
        .error (.endExceedsDuration (resolveEnd src en) (durationOf src))) ∧
    (0 ≤ resolveStart st → resolveEnd src en ≤ durationOf src →
      resolveEnd src en ≤ resolveStart st →
      extract_keyframes src interval_sec st en mw =
        .error (.startNotBeforeEnd (resolveStart st) (resolveEnd src en))) := by
  refine ⟨extract_invalid_iff src interval_sec st en mw hop, ?_, ?_, ?_⟩
  · intro hneg
    unfold extract_keyframes extract_keyframes_run
    rw [if_neg (by simp [hop]), if_pos hneg]
  · intro hge hfar
    unfold extract_keyframes extract_keyframes_run
    rw [if_neg (by simp [hop]), if_neg (not_lt.mpr hge), if_pos hfar]
  · intro hge hfit hba
    unfold extract_keyframes extract_keyframes_run
    rw [if_neg (by simp [hop]), if_neg (not_lt.mpr hge), if_neg (not_lt.mpr hfit),
      if_pos hba]

/-- Witness for C4: a negative start fails with the negative value in the
error, and the result is flagged as a window error. -/
theorem C4_witness :
    extract_keyframes srcMain 10 (some (-1)) none (some 512) =
      .error (.negativeStart (-1)) ∧
    isInvalidWindow (extract_keyframes srcMain 10 (some (-1)) none (some 512)) =
      true := by
  have h := C4_thm srcMain 10 (some (-1)) none (some 512) rfl
  constructor
  · have h2 := h.2.1 (by norm_num [resolveStart])
    simpa [resolveStart] using h2
  · rw [h.1]
    rintro ⟨hc, -⟩
    norm_num [resolveStart] at hc

/-- Shared example: window `[5, 5.5]` with a 2 s interval on the 30 fps
source succeeds with an empty frame list (no absolute multiple of 60 lies
in `[150, 165]`). -/
theorem extract_empty_example :
    extract_keyframes srcMain 2 (some 5) (some (11 / 2)) (some 512) = .ok [] := by
  have h := extract_run_ok srcMain 2 (some 5) (some (11 / 2)) (some 512) rfl
    (by norm_num [resolveStart]) (by norm_num [resolveStart, resolveEnd, srcMain])
    (by norm_num [resolveEnd, durationOf, srcMain])
    (by rw [srcMain_step2]; decide)
  rw [srcMain_sf5, srcMain_ef55, srcMain_step2] at h
  rw [extract_eq_of_run h]
  have hemit : emittedIdx 150 165 60 srcMain.decodeLimit = [] := by decide
  rw [hemit]
  rfl

/-- C5 counterexample: with `frameStep = 60` exceeding the window length
`165 - 150 = 15`, the code emits zero frames, not exactly one at
`startFrame`: no absolute multiple of the step falls in the window. -/
theorem C5_counterexample :
    extract_keyframes srcMain 2 (some 5) (some (11 / 2)) (some 512) = .ok [] ∧
    pyInt (resolveEnd srcMain (some (11 / 2 : ℚ)) * srcMain.fps) -
      pyInt (resolveStart (some (5 : ℚ)) * srcMain.fps) <
      pyInt (srcMain.fps * 2) := by
  refine ⟨extract_empty_example, ?_⟩
  rw [srcMain_sf5, srcMain_ef55, srcMain_step2]
  decide

/-- C5 (amended): when `frameStep` exceeds the window length, at most one
frame is emitted; when one is emitted its index is the unique absolute
multiple of `frameStep` inside the window, which need not be `startFrame`,
and the result may also be empty. -/
theorem C5_thm (src : VideoSource) (interval_sec : ℚ) (st en : Option ℚ)
    (mw : Option ℕ)
    (hop : src.opened = true)
    (h0 : 0 ≤ resolveStart st)
    (h1 : resolveStart st < resolveEnd src en)
    (h2 : resolveEnd src en ≤ durationOf src)
    (hstep : pyInt (src.fps * interval_sec) ≠ 0)
    (hbig : pyInt (resolveEnd src en * src.fps) - pyInt (resolveStart st * src.fps) <
      pyInt (src.fps * interval_sec)) :
    indicesOf (extract_keyframes src interval_sec st en mw) =
      some (emittedIdx (pyInt (resolveStart st * src.fps))
        (pyInt (resolveEnd src en * src.fps)) (pyInt (src.fps * interval_sec))
        src.decodeLimit) ∧
    (emittedIdx (pyInt (resolveStart st * src.fps))
      (pyInt (resolveEnd src en * src.fps)) (pyInt (src.fps * interval_sec))
      src.decodeLimit).length ≤ 1 ∧
    (∀ i ∈ emittedIdx (pyInt (resolveStart st * src.fps))
      (pyInt (resolveEnd src en * src.fps)) (pyInt (src.fps * interval_sec))
      src.decodeLimit, i % pyInt (src.fps * interval_sec) = 0) := by
  refine ⟨?_, emittedIdx_len_le_one _ _ _ _ hbig, ?_⟩
  · rw [extract_eq_of_run (extract_run_ok src interval_sec st en mw hop h0 h1 h2 hstep)]
    simp only [indicesOf]
    rw [indicesOf_map_resized]
  · intro i hi
    exact (emittedIdx_forall _ _ _ _ i hi).2

/-- Witness for C5 at the short-window input. -/
theorem C5_witness :
    indicesOf (extract_keyframes srcMain 2 (some 5) (some (11 / 2)) (some 512)) =
      some (emittedIdx (pyInt (resolveStart (some (5 : ℚ)) * srcMain.fps))
        (pyInt (resolveEnd srcMain (some (11 / 2 : ℚ)) * srcMain.fps))
        (pyInt (srcMain.fps * 2)) srcMain.decodeLimit) ∧
    (emittedIdx (pyInt (resolveStart (some (5 : ℚ)) * srcMain.fps))
      (pyInt (resolveEnd srcMain (some (11 / 2 : ℚ)) * srcMain.fps))
      (pyInt (srcMain.fps * 2)) srcMain.decodeLimit).length ≤ 1 ∧
    (∀ i ∈ emittedIdx (pyInt (resolveStart (some (5 : ℚ)) * srcMain.fps))
      (pyInt (resolveEnd srcMain (some (11 / 2 : ℚ)) * srcMain.fps))
      (pyInt (srcMain.fps * 2)) srcMain.decodeLimit,
      i % pyInt (srcMain.fps * 2) = 0) :=
  C5_thm srcMain 2 (some 5) (some (11 / 2)) (some 512) rfl
    (by norm_num [resolveStart]) (by norm_num [resolveStart, resolveEnd, srcMain])
    (by norm_num [resolveEnd, durationOf, srcMain])
    (by rw [srcMain_step2]; decide)
    (by rw [srcMain_sf5, srcMain_ef55, srcMain_step2]; decide)

/-! Frame arithmetic for the 4x3 resize source. -/

/-- Start frame of a defaulted window on the 1 fps source. -/
theorem srcResize_sf : pyInt (resolveStart (none : Option ℚ) * srcResize.fps) = 0 :=
  pyInt_eval (by norm_num [resolveStart, srcResize]) (by norm_num [resolveStart, srcResize])
    (by norm_num [resolveStart, srcResize])

/-- End frame of a window ending at 0.5 s on the 1 fps source. -/
theorem srcResize_ef : pyInt (resolveEnd srcResize (some (1 / 2 : ℚ)) * srcResize.fps) = 0 :=
  pyInt_eval (by norm_num [resolveEnd, srcResize]) (by norm_num [resolveEnd, srcResize])
    (by norm_num [resolveEnd, srcResize])

/-- Frame step for a 1 s interval on the 1 fps source. -/
theorem srcResize_step : pyInt (srcResize.fps * 1) = 1 :=
  pyInt_eval (by norm_num [srcResize]) (by norm_num [srcResize]) (by norm_num [srcResize])

/-- Resize equation when the cap is below the native width: the height is
the floor (Python truncation) of the scaled height. -/
theorem resizedFrame_some_lt (src : VideoSource) (m : ℕ) (i : ℤ)
    (h : m < src.nativeWidth) :
    resizedFrame src (some m) i =
      ⟨i, m, (⌊(src.nativeHeight : ℚ) * ((m : ℚ) / (src.nativeWidth : ℚ))⌋).toNat⟩ := by
  simp only [resizedFrame]
  rw [if_pos h, pyInt_of_nonneg (by positivity)]

/-- C6 counterexample: a 4x3 source capped at width 2 produces a frame of
height `int(3 * (2/4)) = int(1.5) = 1`, while the claim's formula
`round(3 * 2 / 4) = 2` - the code truncates, it does not round. -/
theorem C6_counterexample :
    extract_keyframes srcResize 1 none (some (1 / 2)) (some 2) =
      .ok [⟨0, 2, 1⟩] ∧
    (1 : ℤ) ≠ round ((3 : ℚ) * 2 / 4) := by
  constructor
  · have h := extract_run_ok srcResize 1 none (some (1 / 2)) (some 2) rfl
      (by norm_num [resolveStart]) (by norm_num [resolveStart, resolveEnd, srcResize])
      (by norm_num [resolveEnd, durationOf, srcResize])
      (by rw [srcResize_step]; decide)
    rw [srcResize_sf, srcResize_ef, srcResize_step] at h
    rw [extract_eq_of_run h]
    have hemit : emittedIdx 0 0 1 srcResize.decodeLimit = [0] := by decide
    rw [hemit]
    have hres : resizedFrame srcResize (some 2) 0 = ⟨0, 2, 1⟩ := by
      rw [resizedFrame_some_lt srcResize 2 0 (by norm_num [srcResize])]
      have harg : ((srcResize.nativeHeight : ℚ) * (((2 : ℕ) : ℚ) / (srcResize.nativeWidth : ℚ))) = 3 / 2 := by
        norm_num [srcResize]
      rw [harg]
      have hfl : ⌊(3 / 2 : ℚ)⌋ = 1 := by
        rw [Int.floor_eq_iff]
        constructor
        · norm_num
        · norm_num
      rw [hfl]
      rfl
    rw [List.map_cons, List.map_nil, hres]
  · have hr : round ((3 : ℚ) * 2 / 4) = 2 := by
      rw [round_eq]
      norm_num
    rw [hr]
    decide

/-- C6 (amended): every emitted frame is produced by `resizedFrame`: with
no cap, or a cap at least the native width, the native dimensions are
kept (never upscaled); with a cap below the native width, the width is
exactly the cap and the height is the floor (truncation, not rounding) of
`nativeHeight * maxWidth / nativeWidth`. -/
theorem C6_thm (src : VideoSource) (interval_sec : ℚ) (st en : Option ℚ)
    (mw : Option ℕ)
    (hop : src.opened = true)
    (h0 : 0 ≤ resolveStart st)
    (h1 : resolveStart st < resolveEnd src en)
    (h2 : resolveEnd src en ≤ durationOf src)
    (hstep : pyInt (src.fps * interval_sec) ≠ 0) :
    extract_keyframes src interval_sec st en mw =
      .ok ((emittedIdx (pyInt (resolveStart st * src.fps))
        (pyInt (resolveEnd src en * src.fps)) (pyInt (src.fps * interval_sec))
        src.decodeLimit).map (resizedFrame src mw)) ∧
    (mw = none → ∀ i : ℤ,
      resizedFrame src mw i = ⟨i, src.nativeWidth, src.nativeHeight⟩) ∧
    (∀ m : ℕ, mw = some m → src.nativeWidth ≤ m → ∀ i : ℤ,
      resizedFrame src mw i = ⟨i, src.nativeWidth, src.nativeHeight⟩) ∧
    (∀ m : ℕ, mw = some m → m < src.nativeWidth → ∀ i : ℤ,
      resizedFrame src mw i =
        ⟨i, m, (⌊(src.nativeHeight : ℚ) * ((m : ℚ) / (src.nativeWidth : ℚ))⌋).toNat⟩) := by
  refine ⟨extract_eq_of_run (extract_run_ok src interval_sec st en mw hop h0 h1 h2 hstep),
    ?_, ?_, ?_⟩
  · intro hmw i
    subst hmw
    rfl
  · intro m hmw hle i
    subst hmw
    simp only [resizedFrame]
    rw [if_neg (not_lt.mpr hle)]
  · intro m hmw hlt i
    subst hmw
    exact resizedFrame_some_lt src m i hlt

/-- Witness for C6 at the 4x3 source capped at width 2. -/
theorem C6_witness :
    extract_keyframes srcResize 1 none (some (1 / 2)) (some 2) =
      .ok ((emittedIdx (pyInt (resolveStart (none : Option ℚ) * srcResize.fps))
        (pyInt (resolveEnd srcResize (some (1 / 2 : ℚ)) * srcResize.fps))
        (pyInt (srcResize.fps * 1)) srcResize.decodeLimit).map
          (resizedFrame srcResize (some 2))) ∧
    ((some 2 : Option ℕ) = none → ∀ i : ℤ,
      resizedFrame srcResize (some 2) i =
        ⟨i, srcResize.nativeWidth, srcResize.nativeHeight⟩) ∧
    (∀ m : ℕ, (some 2 : Option ℕ) = some m → srcResize.nativeWidth ≤ m → ∀ i : ℤ,
      resizedFrame srcResize (some 2) i =
        ⟨i, srcResize.nativeWidth, srcResize.nativeHeight⟩) ∧
    (∀ m : ℕ, (some 2 : Option ℕ) = some m → m < srcResize.nativeWidth → ∀ i : ℤ,
      resizedFrame srcResize (some 2) i =
        ⟨i, m, (⌊(srcResize.nativeHeight : ℚ) *
          ((m : ℚ) / (srcResize.nativeWidth : ℚ))⌋).toNat⟩) :=
  C6_thm srcResize 1 none (some (1 / 2)) (some 2) rfl
    (by norm_num [resolveStart]) (by norm_num [resolveStart, resolveEnd, srcResize])
    (by norm_num [resolveEnd, durationOf, srcResize])
    (by rw [srcResize_step]; decide)

/-- C7: every successful extraction yields frames whose indices lie
between the start and end frame of the window, in strictly increasing
order; the witness shows an empty list is such a successful outcome. -/
theorem C7_thm (src : VideoSource) (interval_sec : ℚ) (st en : Option ℚ)
    (mw : Option ℕ) (fs : List Frame)
    (h : extract_keyframes src interval_sec st en mw = .ok fs) :
    (∀ f ∈ fs, pyInt (resolveStart st * src.fps) ≤ f.index ∧
      f.index ≤ pyInt (resolveEnd src en * src.fps)) ∧
    fs.Pairwise (fun a b => a.index < b.index) :=
  extract_ok_sorted src interval_sec st en mw fs h

/-- Witness for C7: the empty successful extraction satisfies the bounds
and ordering vacuously, exhibiting the empty result as a non-error
outcome. -/
theorem C7_witness :
    (∀ f ∈ ([] : List Frame),
      pyInt (resolveStart (some (5 : ℚ)) * srcMain.fps) ≤ f.index ∧
      f.index ≤ pyInt (resolveEnd srcMain (some (11 / 2 : ℚ)) * srcMain.fps)) ∧
    ([] : List Frame).Pairwise (fun a b => a.index < b.index) :=
  C7_thm srcMain 2 (some 5) (some (11 / 2)) (some 512) [] extract_empty_example

/-! Frame arithmetic for the early-exhaustion source. -/

/-- Start frame of a window starting at 5 s on the truncated source. -/
theorem srcShort_sf5 : pyInt (resolveStart (some (5 : ℚ)) * srcShort.fps) = 150 :=
  pyInt_eval (by norm_num [resolveStart, srcShort]) (by norm_num [resolveStart, srcShort])
    (by norm_num [resolveStart, srcShort])

/-- End frame of a window ending at 15 s on the truncated source. -/
theorem srcShort_ef15 : pyInt (resolveEnd srcShort (some (15 : ℚ)) * srcShort.fps) = 450 :=
  pyInt_eval (by norm_num [resolveEnd, srcShort]) (by norm_num [resolveEnd, srcShort])
    (by norm_num [resolveEnd, srcShort])

/-- Frame step for a 2 s interval on the truncated source. -/
theorem srcShort_step2 : pyInt (srcShort.fps * 2) = 60 :=
  pyInt_eval (by norm_num [srcShort]) (by norm_num [srcShort]) (by norm_num [srcShort])

/-- C8: when the decoder is exhausted at or before the window end, the
call still returns successfully, with exactly the frames collected below
the decode limit; exhaustion is never surfaced as an error. -/
theorem C8_thm (src : VideoSource) (interval_sec : ℚ) (st en : Option ℚ)
    (mw : Option ℕ)
    (hop : src.opened = true)
    (h0 : 0 ≤ resolveStart st)
    (h1 : resolveStart st < resolveEnd src en)
    (h2 : resolveEnd src en ≤ durationOf src)
    (hstep : pyInt (src.fps * interval_sec) ≠ 0)
    (hdl : src.decodeLimit ≤ pyInt (resolveEnd src en * src.fps)) :
    extract_keyframes src interval_sec st en mw =
      .ok ((emittedIdx (pyInt (resolveStart st * src.fps))
        (pyInt (resolveEnd src en * src.fps)) (pyInt (src.fps * interval_sec))
        src.decodeLimit).map (resizedFrame src mw)) ∧
    (∀ i ∈ emittedIdx (pyInt (resolveStart st * src.fps))
      (pyInt (resolveEnd src en * src.fps)) (pyInt (src.fps * interval_sec))
      src.decodeLimit, i < src.decodeLimit) := by
  refine ⟨extract_eq_of_run (extract_run_ok src interval_sec st en mw hop h0 h1 h2 hstep),
    ?_⟩
  intro i hi
  exact (emittedIdx_forall _ _ _ _ i hi).1

/-- Witness for C8: the decoder dying at frame 200 inside the window
`[150, 450]` still yields a successful result. -/
theorem C8_witness :
    extract_keyframes srcShort 2 (some 5) (some 15) (some 512) =
      .ok ((emittedIdx (pyInt (resolveStart (some (5 : ℚ)) * srcShort.fps))
        (pyInt (resolveEnd srcShort (some (15 : ℚ)) * srcShort.fps))
        (pyInt (srcShort.fps * 2)) srcShort.decodeLimit).map
          (resizedFrame srcShort (some 512))) ∧
    (∀ i ∈ emittedIdx (pyInt (resolveStart (some (5 : ℚ)) * srcShort.fps))
      (pyInt (resolveEnd srcShort (some (15 : ℚ)) * srcShort.fps))
      (pyInt (srcShort.fps * 2)) srcShort.decodeLimit, i < srcShort.decodeLimit) :=
  C8_thm srcShort 2 (some 5) (some 15) (some 512) rfl
    (by norm_num [resolveStart]) (by norm_num [resolveStart, resolveEnd, srcShort])
    (by norm_num [resolveEnd, durationOf, srcShort])
    (by rw [srcShort_step2]; decide)
    (by rw [srcShort_ef15]; decide)

/-- C9: the summary builder distinguishes exactly the four tags `short`,
`timeline`, `detailed`, `technical` and the analysis builder the four tags
`short`, `detailed`, `technical`, `descriptive`; any other tag falls back
to the `short` prompt of the respective builder. -/
theorem C9_thm :
    (∀ s : String, s ∉ ["short", "timeline", "detailed", "technical"] →
      build_summary_prompt s = build_summary_prompt "short") ∧
    (∀ s : String, s ∉ ["short", "detailed", "technical", "descriptive"] →
      build_analysis_prompt s = build_analysis_prompt "short") ∧
    (["short", "timeline", "detailed", "technical"].Pairwise
      (fun a b => build_summary_prompt a ≠ build_summary_prompt b)) ∧
    (["short", "detailed", "technical", "descriptive"].Pairwise
      (fun a b => build_analysis_prompt a ≠ build_analysis_prompt b)) := by
  refine ⟨?_, ?_, by decide, by decide⟩
  · intro s hs
    simp only [List.mem_cons, List.not_mem_nil, or_false, not_or] at hs
    obtain ⟨h1, h2, h3, h4⟩ := hs
    have b1 : (s == "short") = false := beq_eq_false_iff_ne.mpr h1
    have b2 : (s == "timeline") = false := beq_eq_false_iff_ne.mpr h2
    have b3 : (s == "detailed") = false := beq_eq_false_iff_ne.mpr h3
    have b4 : (s == "technical") = false := beq_eq_false_iff_ne.mpr h4
    simp [build_summary_prompt, summaryPromptTable, List.lookup, b1, b2, b3, b4]
  · intro s hs
    simp only [List.mem_cons, List.not_mem_nil, or_false, not_or] at hs
    obtain ⟨h1, h2, h3, h4⟩ := hs
    have b1 : (s == "short") = false := beq_eq_false_iff_ne.mpr h1
    have b2 : (s == "detailed") = false := beq_eq_false_iff_ne.mpr h2
    have b3 : (s == "technical") = false := beq_eq_false_iff_ne.mpr h3
    have b4 : (s == "descriptive") = false := beq_eq_false_iff_ne.mpr h4
    simp [build_analysis_prompt, analysisPromptTable, List.lookup, b1, b2, b3, b4]

/-- Witness for C9: an unrecognized tag falls back to the `short` prompt
in both builders. -/
theorem C9_witness :
    build_summary_prompt "storyboard" = build_summary_prompt "short" ∧
    build_analysis_prompt "storyboard" = build_analysis_prompt "short" :=
  ⟨C9_thm.1 "storyboard" (by decide), C9_thm.2.1 "storyboard" (by decide)⟩

/-- C10: a nonpositive reported frame rate gives duration 0 without any
division, and then every window fails validation: the call always raises
one of the three window errors and never returns a frame list. -/
theorem C10_thm (src : VideoSource) (interval_sec : ℚ) (st en : Option ℚ)
    (mw : Option ℕ) (hop : src.opened = true) (hfps : src.fps ≤ 0) :
    durationOf src = 0 ∧
    isInvalidWindow (extract_keyframes src interval_sec st en mw) = true ∧
    (∀ fs : List Frame, extract_keyframes src interval_sec st en mw ≠ .ok fs) := by
  have hd : durationOf src = 0 := by
    unfold durationOf
    rw [if_neg (not_lt.mpr hfps)]
  have hiw : isInvalidWindow (extract_keyframes src interval_sec st en mw) = true := by
    rw [extract_invalid_iff src interval_sec st en mw hop]
    rintro ⟨hc0, hc1, hc2⟩
    rw [hd] at hc2
    linarith
  refine ⟨hd, hiw, ?_⟩
  intro fs hcon
  rw [hcon] at hiw
  simp [isInvalidWindow] at hiw

/-- Witness for C10 on a zero-fps source with a nonempty requested
window. -/
theorem C10_witness :
    durationOf srcZeroFps = 0 ∧
    isInvalidWindow (extract_keyframes srcZeroFps 10 (some 3) (some 7) (some 512)) =
      true ∧
    (∀ fs : List Frame,
      extract_keyframes srcZeroFps 10 (some 3) (some 7) (some 512) ≠ .ok fs) :=
  C10_thm srcZeroFps 10 (some 3) (some 7) (some 512) rfl (by norm_num [srcZeroFps])
